import Mathlib

/-!
Verification of the turn-processing gateway in `src/index.js`.

The file shallowly embeds the gateway's data model and operations:
the backing state store with its conversation/user scopes, the
`adapter.onTurnError` error boundary, startup validation of the OAuth
connection name, the `/oauthcallback` endpoint, the `addBotToTurnState`
middleware, the `/api/messages` route's catch-all, the CORS middleware,
and the `unhandledRejection` handler.  External collaborators
(botbuilder's `MemoryStorage`, `ConversationState`, `UserState`, the
restify response object) are embedded through the contract the spec
states for them: a key-value store keyed by (channel, conversation) or
(channel, user) scopes, and a response carrying status, headers and body.
-/

namespace AlfaAuth

/-- A scope identifier for the backing store.  Conversation State is keyed
by (channel, conversation); User State is keyed by (channel, user)
(spec section 3; botbuilder derives distinct string keys for the two
scopes, so they never collide and are modelled as distinct constructors). -/
inductive ScopeKey where
  | conversation (channelId conversationId : String)
  | user (channelId userId : String)
deriving DecidableEq

/-- A serializable property bag held per scope. -/
abbrev Bag := List (String × String)

/-- The backing `MemoryStorage`: a dictionary from scope keys to bags. -/
abbrev Store := ScopeKey → Option Bag

/-- Writing a bag to a scope key (last writer wins). -/
def Store.write (s : Store) (k : ScopeKey) (b : Bag) : Store :=
  fun q => if q = k then some b else s q

/-- Deleting the entry at a scope key. -/
def Store.erase (s : Store) (k : ScopeKey) : Store :=
  fun q => if q = k then none else s q

/-- An inbound activity as read by `index.js` (type, optional name and
text, and the identifiers from which state scopes are derived). -/
structure Activity where
  type : String
  name : Option String := none
  text : Option String := none
  channelId : String
  conversationId : String
  userId : String

/-- The Conversation State scope key of an activity's turn. -/
def convScope (a : Activity) : ScopeKey :=
  ScopeKey.conversation a.channelId a.conversationId

/-- The User State scope key of an activity's turn. -/
def userScope (a : Activity) : ScopeKey :=
  ScopeKey.user a.channelId a.userId

/-- A JavaScript error value as consumed by `adapter.onTurnError`:
a possibly-absent `message` string and a `stack` string. -/
structure JsError where
  message : Option String
  stack : String

/-- The text `error.message || 'Ocurrió un error inesperado.'` from
`index.js` line 44: JavaScript `||` falls through when `message` is
`undefined` or the empty string. -/
def errorMsgOf (e : JsError) : String :=
  match e.message with
  | none => "Ocurrió un error inesperado."
  | some s => if s = "" then "Ocurrió un error inesperado." else s

/-- A turn context: the inbound activity plus the texts of the outbound
message activities sent through it so far. -/
structure TurnContext where
  activity : Activity
  sent : List String

/-- Sending an outbound message activity (`context.sendActivity`). -/
def sendActivity (ctx : TurnContext) (text : String) : TurnContext :=
  { ctx with sent := ctx.sent ++ [text] }

/-- The `conversationState.delete(context)` call: botbuilder's
`BotState.delete` removes the backing item for the turn's conversation
scope from the store. -/
def conversationStateDelete (s : Store) (ctx : TurnContext) : Store :=
  Store.erase s (convScope ctx.activity)

/-- The error boundary `adapter.onTurnError` (`index.js` lines 43-53):
log (no store or outbound effect), delete Conversation State for the
turn's scope, then send one apology message built from the error's
message text. -/
def onTurnError (s : Store) (ctx : TurnContext) (e : JsError) :
    Store × TurnContext :=
  let errorMsg := errorMsgOf e
  let s := conversationStateDelete s ctx
  let ctx := sendActivity ctx ("Lo siento, ocurrió un error. " ++ errorMsg)
  (s, ctx)

/-- JavaScript truthiness of a possibly-undefined string value:
`undefined` and the empty string are falsy. -/
def truthy : Option String → Bool
  | none => false
  | some s => !(s == "")

/-- JavaScript `a || b` on possibly-undefined string values: yields `a`
when it is truthy, otherwise `b`. -/
def jsOr (a b : Option String) : Option String :=
  if truthy a then a else b

/-- The environment variables `index.js` reads at startup (those relevant
to the validated OAuth connection name and the listen port). -/
structure Env where
  connectionName : Option String
  OAUTH_CONNECTION_NAME : Option String
  PORT : Option String
  port : Option String

/-- The value `process.env.connectionName || process.env.OAUTH_CONNECTION_NAME`
computed on `index.js` line 24. -/
def resolvedConnectionName (env : Env) : Option String :=
  jsOr env.connectionName env.OAUTH_CONNECTION_NAME

/-- The listen port `process.env.PORT || process.env.port || 3978` from
`index.js` line 73. -/
def resolvedPort (env : Env) : String :=
  match jsOr env.PORT (jsOr env.port (some "3978")) with
  | none => "3978"
  | some s => s

/-- The observable outcome of running the top level of `index.js`:
either the process exits with a code before any port is bound, or it
binds the listen port and serves. -/
inductive StartupResult where
  | exited (code : Nat)
  | listening (port : String)
deriving DecidableEq

/-- The top-level startup sequence of `index.js`: line 25 checks the
resolved connection name and calls `process.exit(1)` when it is falsy;
only a run that passes this check reaches `server.listen(port)` on
line 74. -/
def startup (env : Env) : StartupResult :=
  if !(truthy (resolvedConnectionName env)) then
    StartupResult.exited 1
  else
    StartupResult.listening (resolvedPort env)

/-- An observable action taken by a process-level event handler. -/
inductive ProcessAction where
  | log (msg : String)
  | exit (code : Nat)
deriving DecidableEq

/-- The `process.on('unhandledRejection')` handler from `index.js`
lines 165-168: it logs the rejection reason and takes no other action
(in particular it never calls `process.exit`). -/
def unhandledRejectionHandler (reason : String) : List ProcessAction :=
  [ProcessAction.log ("Unhandled Promise Rejection: " ++ reason)]

/-- An inbound HTTP request as far as the embedded handlers inspect it:
its query parameters. -/
structure HttpRequest where
  queryParams : List (String × String)

/-- An outbound HTTP response: status code, named headers, body text. -/
structure HttpResponse where
  status : Nat
  headers : List (String × String)
  body : String
deriving DecidableEq

/-- Setting a named header (`res.header` / `res.setHeader`): replaces any
existing header of the same name. -/
def setHeader (res : HttpResponse) (k v : String) : HttpResponse :=
  { res with headers := res.headers.filter (fun p => !(p.1 == k)) ++ [(k, v)] }

/-- Node's `res.writeHead(status, headers)`: sets the status code and the
given headers, merging with headers already set on the response. -/
def writeHead (res : HttpResponse) (status : Nat)
    (hs : List (String × String)) : HttpResponse :=
  { hs.foldl (fun r kv => setHeader r kv.1 kv.2) res with status := status }

/-- A fresh response before any handler has written to it. -/
def emptyResponse : HttpResponse :=
  { status := 200, headers := [], body := "" }

/-- The `crossOrigin` middleware installed with `server.use` (`index.js`
lines 82-90): sets the three CORS headers on the response of every
routed request before the route handler runs. -/
def crossOrigin (res : HttpResponse) : HttpResponse :=
  setHeader
    (setHeader
      (setHeader res "Access-Control-Allow-Origin" "*")
      "Access-Control-Allow-Headers"
      "X-Requested-With, Content-Type, Accept, Origin, Authorization")
    "Access-Control-Allow-Methods" "GET, POST, PUT, DELETE, OPTIONS"

/-- The fixed HTML document rendered by `/oauthcallback` (`index.js`
lines 142-152). -/
def htmlContent : String :=
  "\n    <html>\n        <body>\n            <p>Autenticación completada. Puedes cerrar esta ventana y volver a Teams.</p>\n            <script>\n                setTimeout(function() \x7b\n                    window.close();\n                \x7d, 3000);\n            </script>\n        </body>\n    </html>"

/-- The `GET /oauthcallback` handler (`index.js` lines 139-162): writes a
200 head with explicit `Content-Length` (the UTF-8 byte length computed
by `Buffer.byteLength`) and `Content-Type` headers, writes the fixed HTML
body, and neither reads from nor writes to the store. -/
def oauthCallbackHandler (s : Store) (req : HttpRequest)
    (res : HttpResponse) : Store × HttpResponse :=
  let res := writeHead res 200
    [("Content-Length", toString htmlContent.utf8ByteSize),
     ("Content-Type", "text/html")]
  (s, { res with body := htmlContent })

/-- The bot handle: the `TeamsBot` singleton constructed once at process
start (`index.js` line 66); opaque to the gateway, it is only stored and
passed along. -/
structure Bot where
  id : Nat
deriving DecidableEq

/-- The turn-state bag attached to a request: a `Map` from string keys to
the objects passed between pipeline stages (here the bot handle). -/
abbrev TurnStateBag := String → Option Bot

/-- The `Map.set(key, value)` operation on the turn-state bag:
overwrites any previous value at the key. -/
def TurnStateBag.set (m : TurnStateBag) (k : String) (v : Bot) : TurnStateBag :=
  fun q => if q = k then some v else m q

/-- An inbound request to `/api/messages` as the middleware sees it:
possibly already carrying a turn-state bag. -/
structure Req where
  turnState : Option TurnStateBag

/-- The `addBotToTurnState` middleware (`index.js` lines 93-101):
creates the turn-state `Map` when absent and sets the bot handle under
the key `"bot"`; it always succeeds and calls `next()`. -/
def addBotToTurnState (b : Bot) (req : Req) : Req :=
  let ts : TurnStateBag :=
    match req.turnState with
    | none => fun _ => none
    | some m => m
  { req with turnState := some (TurnStateBag.set ts "bot" b) }

/-- The `/api/messages` route chain (`index.js` line 104): the
`addBotToTurnState` middleware runs to completion before the dispatch
handler receives the request. -/
def apiMessagesRoute (b : Bot) (dispatch : Req → HttpResponse)
    (req : Req) : HttpResponse :=
  dispatch (addBotToTurnState b req)

/-- The outcome of `adapter.process(req, res, ...)` inside the
`/api/messages` handler: either the adapter completes and writes a status
and body to the response, or the dispatch throws an error. -/
inductive DispatchOutcome where
  | ok (status : Nat) (body : String)
  | threw (e : JsError)

/-- The `POST /api/messages` handler body (`index.js` lines 104-130):
`try { await adapter.process(...) } catch { res.status(500).send('Error
interno del servidor') }` — on an unrecovered dispatch failure it answers
500 with a fixed plain-text body, keeping the headers already set. -/
def apiMessagesHandler (outcome : DispatchOutcome)
    (res : HttpResponse) : HttpResponse :=
  match outcome with
  | DispatchOutcome.ok status body => { res with status := status, body := body }
  | DispatchOutcome.threw _ =>
      { res with status := 500, body := "Error interno del servidor" }

/-- The routes registered on the restify server, together with the data
their handlers consume (`index.js` lines 104, 133, 139). -/
inductive Route where
  | apiMessages (outcome : DispatchOutcome)
  | publicStatic (content : String)
  | oauthcallback

/-- Serving one routed request: restify runs the `server.use` chain (the
`crossOrigin` middleware) on the fresh response, then the matched route's
handler. -/
def serveRequest (s : Store) (r : Route) (req : HttpRequest) : HttpResponse :=
  let res := crossOrigin emptyResponse
  match r with
  | Route.apiMessages outcome => apiMessagesHandler outcome res
  | Route.publicStatic content => { res with status := 200, body := content }
  | Route.oauthcallback => (oauthCallbackHandler s req res).2

/-- Serving `GET /oauthcallback` end to end, with the store threaded
through. -/
def serveOauthCallback (s : Store) (req : HttpRequest) : Store × HttpResponse :=
  oauthCallbackHandler s req (crossOrigin emptyResponse)

/-- Modelled from the spec: the Activity Dispatcher (`TeamsBot.run` /
`MainDialog`, whose files `./bots/teamsBot` and `./dialogs/mainDialog`
are not under `src/`).  Per spec section 4.3, a successful message turn
loads the Conversation and User State bags for the turn's scopes, lets
the handler mutate them in memory, and on successful completion flushes
both bags to the Store — the save point; the trace records the store as
seen during the turn before the flush and the store after it. -/
structure TurnTrace where
  loadedBag : Bag
  preFlushStore : Store
  postFlushStore : Store

/-- Modelled from the spec: one successful message turn (spec sections
4.3 and 8.1); `convHandler` and `userHandler` are the dialog engine's
mutations of the Conversation and User State bags. -/
def runMessageTurn (s : Store) (a : Activity)
    (convHandler : Bag → Bag) (userHandler : Bag → Bag) : TurnTrace :=
  let loadedConv := (s (convScope a)).getD []
  let loadedUser := (s (userScope a)).getD []
  { loadedBag := loadedConv
    preFlushStore := s
    postFlushStore :=
      Store.write (Store.write s (convScope a) (convHandler loadedConv))
        (userScope a) (userHandler loadedUser) }

theorem store_erase_self (s : Store) (k : ScopeKey) :
    Store.erase s k k = none := by
  simp [Store.erase]

theorem store_erase_ne (s : Store) (k q : ScopeKey) (h : q ≠ k) :
    Store.erase s k q = s q := by
  simp [Store.erase, h]

theorem store_write_self (s : Store) (k : ScopeKey) (b : Bag) :
    Store.write s k b k = some b := by
  simp [Store.write]

theorem store_write_ne (s : Store) (k q : ScopeKey) (b : Bag) (h : q ≠ k) :
    Store.write s k b q = s q := by
  simp [Store.write, h]

/-- The two scope constructors never coincide. -/
theorem userScope_ne_convScope (a : Activity) : userScope a ≠ convScope a := by
  simp [userScope, convScope]

/-- C1: for every turn whose handler throws, the error boundary leaves the
Conversation State for that conversation empty, sends exactly one outbound
message activity consisting of the fixed apology text followed by the
error's message text, and its output never depends on the error's stack
trace (two errors with the same message but any stacks produce identical
output). -/
theorem onTurnError_recovery (s : Store) (ctx : TurnContext) (e : JsError) :
    (onTurnError s ctx e).1 (convScope ctx.activity) = none ∧
    (onTurnError s ctx e).2.sent =
      ctx.sent ++ ["Lo siento, ocurrió un error. " ++ errorMsgOf e] ∧
    (∀ e' : JsError, e'.message = e.message →
      onTurnError s ctx e' = onTurnError s ctx e) := by
  refine ⟨?_, ?_, ?_⟩
  · simp [onTurnError, conversationStateDelete, Store.erase]
  · simp [onTurnError, sendActivity]
  · intro e' h
    simp [onTurnError, errorMsgOf, h]

theorem onTurnError_recovery_check :
    (onTurnError (fun _ => none)
        { activity := { type := "message", channelId := "msteams",
                        conversationId := "c1", userId := "u1" },
          sent := [] }
        { message := some "boom", stack := "trace A" } =
      onTurnError (fun _ => none)
        { activity := { type := "message", channelId := "msteams",
                        conversationId := "c1", userId := "u1" },
          sent := [] }
        { message := some "boom", stack := "trace B" }) :=
  ((onTurnError_recovery (fun _ => none)
      { activity := { type := "message", channelId := "msteams",
                      conversationId := "c1", userId := "u1" },
        sent := [] }
      { message := some "boom", stack := "trace B" }).2.2
    { message := some "boom", stack := "trace A" } rfl)

/-- C9: the error boundary's recovery path deletes only the Conversation
State scope; every other scope in the shared store, in particular the
turn's User State scope, is left unchanged. -/
theorem onTurnError_frame (s : Store) (ctx : TurnContext) (e : JsError) :
    (onTurnError s ctx e).1 (userScope ctx.activity) =
      s (userScope ctx.activity) ∧
    (∀ k : ScopeKey, k ≠ convScope ctx.activity →
      (onTurnError s ctx e).1 k = s k) := by
  constructor
  · simp [onTurnError, conversationStateDelete, Store.erase,
      userScope_ne_convScope ctx.activity]
  · intro k hk
    simp [onTurnError, conversationStateDelete, Store.erase, hk]

theorem onTurnError_frame_check :
    (onTurnError
        (fun k => if k = ScopeKey.user "msteams" "u1" then some [("n", "1")] else none)
        { activity := { type := "message", channelId := "msteams",
                        conversationId := "c1", userId := "u1" },
          sent := [] }
        { message := some "boom", stack := "tr" }).1
      (ScopeKey.user "msteams" "u1") = some [("n", "1")] := by
  have h := (onTurnError_frame
      (fun k => if k = ScopeKey.user "msteams" "u1" then some [("n", "1")] else none)
      { activity := { type := "message", channelId := "msteams",
                      conversationId := "c1", userId := "u1" },
        sent := [] }
      { message := some "boom", stack := "tr" }).2
      (ScopeKey.user "msteams" "u1") (by decide)
  simpa using h

/-- C10: when the turn error's `message` is absent or empty, the apology
activity falls back to the fixed default text, so the notification is
never empty of explanatory text. -/
theorem onTurnError_default_message (s : Store) (ctx : TurnContext)
    (e : JsError) (h : e.message = none ∨ e.message = some "") :
    (onTurnError s ctx e).2.sent =
      ctx.sent ++ ["Lo siento, ocurrió un error. Ocurrió un error inesperado."] := by
  rcases h with h | h <;> simp [onTurnError, sendActivity, errorMsgOf, h]

theorem onTurnError_default_message_check :
    (onTurnError (fun _ => none)
        { activity := { type := "message", channelId := "msteams",
                        conversationId := "c1", userId := "u1" },
          sent := [] }
        { message := none, stack := "tr" }).2.sent =
      ["Lo siento, ocurrió un error. Ocurrió un error inesperado."] := by
  have h := onTurnError_default_message (fun _ => none)
      { activity := { type := "message", channelId := "msteams",
                      conversationId := "c1", userId := "u1" },
        sent := [] }
      { message := none, stack := "tr" } (Or.inl rfl)
  simpa using h

/-- C3: a startup in which the OAuth connection name variables are unset
exits the process with code 1 and never binds a listen port. -/
theorem startup_missing_connection_exits (env : Env)
    (h₁ : env.connectionName = none) (h₂ : env.OAUTH_CONNECTION_NAME = none) :
    startup env = StartupResult.exited 1 ∧
    ∀ p : String, startup env ≠ StartupResult.listening p := by
  have hres : resolvedConnectionName env = none := by
    simp [resolvedConnectionName, jsOr, h₁, h₂, truthy]
  constructor
  · simp [startup, hres, truthy]
  · intro p
    simp [startup, hres, truthy]

theorem startup_missing_connection_exits_check :
    startup { connectionName := none, OAUTH_CONNECTION_NAME := none,
              PORT := some "3978", port := none } = StartupResult.exited 1 :=
  (startup_missing_connection_exits
    { connectionName := none, OAUTH_CONNECTION_NAME := none,
      PORT := some "3978", port := none } rfl rfl).1

/-- C7: for every unobserved promise failure, the last-resort handler
logs the failure and never performs a process exit. -/
theorem unhandledRejection_logs_never_exits (reason : String) :
    ProcessAction.log ("Unhandled Promise Rejection: " ++ reason) ∈
      unhandledRejectionHandler reason ∧
    ∀ c : Nat, ProcessAction.exit c ∉ unhandledRejectionHandler reason := by
  constructor
  · exact List.mem_singleton.mpr rfl
  · intro c hmem
    simp [unhandledRejectionHandler] at hmem

theorem unhandledRejection_logs_never_exits_check :
    ProcessAction.exit 1 ∉ unhandledRejectionHandler "boom" :=
  (unhandledRejection_logs_never_exits "boom").2 1

/-- C4: `GET /oauthcallback` leaves the store untouched, answers 200 with
the fixed HTML body and explicit `Content-Length` and
`Content-Type: text/html` headers, and its response is byte-identical for
every request (no query parameters or arbitrary ones) and every store
content. -/
theorem oauthcallback_deterministic (s : Store) (req : HttpRequest) :
    (serveOauthCallback s req).1 = s ∧
    (serveOauthCallback s req).2.status = 200 ∧
    (serveOauthCallback s req).2.body = htmlContent ∧
    ("Content-Type", "text/html") ∈ (serveOauthCallback s req).2.headers ∧
    ("Content-Length", toString htmlContent.utf8ByteSize) ∈
      (serveOauthCallback s req).2.headers ∧
    (∀ s' : Store, ∀ req' : HttpRequest,
      (serveOauthCallback s' req').2 = (serveOauthCallback s req).2) := by
  refine ⟨rfl, rfl, rfl, ?_, ?_, fun s' req' => rfl⟩
  · simp [serveOauthCallback, oauthCallbackHandler, writeHead, setHeader,
      crossOrigin, emptyResponse]
  · simp [serveOauthCallback, oauthCallbackHandler, writeHead, setHeader,
      crossOrigin, emptyResponse]

/-- C5: before dispatch on `/api/messages`, the `addBotToTurnState`
middleware stores the bot handle in the turn-state bag under `"bot"` so
the dispatch handler can look it up on its request; the operation
overwrites any previous value at the key (so it is idempotent) and always
succeeds (it is a total function). -/
theorem addBotToTurnState_sets_bot (b b' : Bot) (req : Req)
    (dispatch : Req → HttpResponse) :
    (∃ ts : TurnStateBag, (addBotToTurnState b req).turnState = some ts ∧
      ts "bot" = some b) ∧
    addBotToTurnState b (addBotToTurnState b' req) = addBotToTurnState b req ∧
    apiMessagesRoute b dispatch req = dispatch (addBotToTurnState b req) := by
  refine ⟨⟨_, rfl, by simp [addBotToTurnState, TurnStateBag.set]⟩, ?_, rfl⟩
  have hset : ∀ ts0 : TurnStateBag,
      TurnStateBag.set (TurnStateBag.set ts0 "bot" b') "bot" b =
        TurnStateBag.set ts0 "bot" b := by
    intro ts0
    funext q
    by_cases h : q = "bot" <;> simp [TurnStateBag.set, h]
  simp [addBotToTurnState, hset]

/-- C6: a `POST /api/messages` dispatch failure that escapes the error
boundary is answered with HTTP 500 and the fixed plain-text body, for
every store, request and error — the secondary failure is surfaced, not
masked as a success. -/
theorem apiMessages_unrecovered_failure_500 (s : Store) (e : JsError)
    (req : HttpRequest) :
    (serveRequest s (Route.apiMessages (DispatchOutcome.threw e)) req).status
      = 500 ∧
    (serveRequest s (Route.apiMessages (DispatchOutcome.threw e)) req).body
      = "Error interno del servidor" := by
  exact ⟨rfl, rfl⟩

/-- C8: every response produced on every registered route carries the CORS
headers permitting any origin and the verb set
GET, POST, PUT, DELETE, OPTIONS — a blanket policy coming from the
`server.use` middleware chain, not from individual routes. -/
theorem all_routes_cors (s : Store) (r : Route) (req : HttpRequest) :
    ("Access-Control-Allow-Origin", "*") ∈ (serveRequest s r req).headers ∧
    ("Access-Control-Allow-Methods", "GET, POST, PUT, DELETE, OPTIONS") ∈
      (serveRequest s r req).headers := by
  cases r with
  | apiMessages outcome =>
      cases outcome <;>
        simp [serveRequest, apiMessagesHandler, crossOrigin, setHeader,
          emptyResponse]
  | publicStatic content =>
      simp [serveRequest, crossOrigin, setHeader, emptyResponse]
  | oauthcallback =>
      simp [serveRequest, oauthCallbackHandler, writeHead, setHeader,
        crossOrigin, emptyResponse]

/-- C2: in a successful message turn, the store seen during the turn is
the pre-turn store (handler mutations are invisible before the flush),
the save point writes the handler's mutated Conversation State bag to the
store, and a subsequent turn in the same conversation loads exactly that
mutated bag. -/
theorem turn_flush_visibility (s : Store) (a a' : Activity)
    (ch uh ch' uh' : Bag → Bag)
    (hchan : a'.channelId = a.channelId)
    (hconv : a'.conversationId = a.conversationId) :
    (runMessageTurn s a ch uh).preFlushStore = s ∧
    (runMessageTurn s a ch uh).postFlushStore (convScope a) =
      some (ch (runMessageTurn s a ch uh).loadedBag) ∧
    (runMessageTurn (runMessageTurn s a ch uh).postFlushStore a' ch' uh').loadedBag
      = ch (runMessageTurn s a ch uh).loadedBag := by
  have hne : convScope a ≠ userScope a :=
    fun h => userScope_ne_convScope a h.symm
  have hscope : convScope a' = convScope a := by
    simp [convScope, hchan, hconv]
  refine ⟨rfl, ?_, ?_⟩
  · simp [runMessageTurn, Store.write, hne]
  · simp [runMessageTurn, hscope, Store.write, hne]

theorem turn_flush_visibility_check :
    (runMessageTurn
        (runMessageTurn (fun _ => none)
          { type := "message", text := some "hello", channelId := "msteams",
            conversationId := "c1", userId := "u1" }
          (fun b => ("count", "1") :: b) id).postFlushStore
        { type := "message", text := some "hello", channelId := "msteams",
          conversationId := "c1", userId := "u1" }
        id id).loadedBag =
      ("count", "1") ::
        (runMessageTurn (fun _ => none)
          { type := "message", text := some "hello", channelId := "msteams",
            conversationId := "c1", userId := "u1" }
          (fun b => ("count", "1") :: b) id).loadedBag :=
  (turn_flush_visibility (fun _ => none)
    { type := "message", text := some "hello", channelId := "msteams",
      conversationId := "c1", userId := "u1" }
    { type := "message", text := some "hello", channelId := "msteams",
      conversationId := "c1", userId := "u1" }
    (fun b => ("count", "1") :: b) id id id rfl rfl).2.2

end AlfaAuth
